import Mathlib

/-!
Verification of the reminder subsystem, conversation-history handling,
intent classification and natural-language time parsing of the
WhatsApp-bot repository (src/services/reminderService.js,
src/services/mistralService.js, src/handlers/messageHandler.js).

The JavaScript source is shallowly embedded below.  Timestamps are
modelled as `Int` milliseconds since the Unix epoch in UTC, matching the
value that moment.js stores internally; the in-memory `Map` objects are
modelled as insertion-ordered association lists; in-place mutation is
modelled by returning the updated store alongside the result; a thrown
exception is modelled by an `Except.error` result paired with the
unchanged store.  Wall-clock reads (`moment()`) and uuid generation are
injected as explicit parameters.
-/

namespace WBot

/-- A moment.js instant: milliseconds since the Unix epoch, UTC. -/
abbrev Moment := Int

/-! ### Calendar arithmetic used by `moment().add(1, 'month')` and `moment([y, m, d])` -/

/-- Gregorian leap-year test. -/
def isLeap (y : Int) : Bool := y % 4 == 0 && (y % 100 != 0 || y % 400 == 0)

/-- Number of days in month `m` (1..12) of year `y`. -/
def daysInMonth (y m : Int) : Int :=
  if m == 2 then (if isLeap y then 29 else 28)
  else if m == 4 || m == 6 || m == 9 || m == 11 then 30
  else 31

/-- Day count since 1970-01-01 of the civil date `y-m-d` (m in 1..12),
    standard era-based civil-calendar algorithm. -/
def daysFromCivil (y m d : Int) : Int :=
  let y := if m ≤ 2 then y - 1 else y
  let era := y.fdiv 400
  let yoe := y - era * 400
  let mp := if m > 2 then m - 3 else m + 9
  let doy := (153 * mp + 2).fdiv 5 + d - 1
  let doe := yoe * 365 + yoe.fdiv 4 - yoe.fdiv 100 + doy
  era * 146097 + doe - 719468

/-- Civil date `(y, m, d)` of a day count since 1970-01-01 (inverse direction
    of `daysFromCivil`, same standard algorithm). -/
def civilFromDays (z : Int) : Int × Int × Int :=
  let z := z + 719468
  let era := z.fdiv 146097
  let doe := z - era * 146097
  let yoe := (doe - doe.fdiv 1460 + doe.fdiv 36524 - doe.fdiv 146096).fdiv 365
  let y := yoe + era * 400
  let doy := doe - (365 * yoe + yoe.fdiv 4 - yoe.fdiv 100)
  let mp := (5 * doy + 2).fdiv 153
  let d := doy - (153 * mp + 2).fdiv 5 + 1
  let m := if mp < 10 then mp + 3 else mp - 9
  (if m ≤ 2 then y + 1 else y, m, d)

def msPerMinute : Int := 60000
def msPerHour : Int := 3600000
def msPerDay : Int := 86400000
def msPerWeek : Int := 604800000

/-- `moment(x).add(1, 'month')`: bump the civil month keeping time of day,
    clamping the day of month to the end of the target month. -/
def addOneMonth (t : Moment) : Moment :=
  let day := t.fdiv msPerDay
  let tod := t.emod msPerDay
  let c := civilFromDays day
  let y := c.1
  let m := c.2.1
  let d := c.2.2
  let y2 := if m == 12 then y + 1 else y
  let m2 := if m == 12 then 1 else m + 1
  let d2 := min d (daysInMonth y2 m2)
  daysFromCivil y2 m2 d2 * msPerDay + tod

/-- Milliseconds elapsed since UTC midnight of the instant. -/
def msOfDay (t : Moment) : Int := t.emod msPerDay

/-- UTC midnight of the instant's day. -/
def dayStart (t : Moment) : Int := t - msOfDay t

/-- `m.hour(h).minute(mi).second(s)` applied to instant `t`: each moment.js
    setter replaces its own field (out-of-range values bubble up to the day)
    and the millisecond-of-second of `t` is preserved. -/
def setHMS (t : Moment) (h mi s : Int) : Moment :=
  dayStart t + h * msPerHour + mi * msPerMinute + s * 1000 + t.emod 1000

/-- `moment([year, monthIndex, day])` with civil month `mM` (the source passes
    `month - 1` as the 0-based index): midnight of that date, or an invalid
    moment (`none`) when the month or day is out of range. -/
def momentYMD (y mM d : Int) : Option Moment :=
  if 1 ≤ mM ∧ mM ≤ 12 ∧ 1 ≤ d ∧ d ≤ daysInMonth y mM then
    some (daysFromCivil y mM d * msPerDay)
  else none

/-- Convenience constructor for concrete instants in theorems. -/
def mkMoment (y mo d h mi : Int) : Moment :=
  daysFromCivil y mo d * msPerDay + h * msPerHour + mi * msPerMinute

/-! ### JS `Map` as an insertion-ordered association list -/

/-- `map.get(k)` -/
def mget (m : List (String × α)) (k : String) : Option α :=
  (m.find? (fun e => e.1 == k)).map (·.2)

/-- `map.get(k)` with a default for a missing key (`|| []` in the source). -/
def mgetD (m : List (String × α)) (k : String) (d : α) : α :=
  (mget m k).getD d

/-- `map.set(k, v)`: replace the entry when the key is present, append otherwise. -/
def mset (m : List (String × α)) (k : String) (v : α) : List (String × α) :=
  if m.any (fun e => e.1 == k) then
    m.map (fun e => if e.1 == k then (k, v) else e)
  else m ++ [(k, v)]

/-- `map.delete(k)` -/
def mdel (m : List (String × α)) (k : String) : List (String × α) :=
  m.filter (fun e => e.1 != k)

/-! ### Reminder data model (reminderService.js) -/

inductive RStatus
  | active
  | sent
  | cancelled
  | failed
deriving DecidableEq, Repr

/-- The string the source stores in the `status` field. -/
def RStatus.str : RStatus → String
  | .active => "active"
  | .sent => "sent"
  | .cancelled => "cancelled"
  | .failed => "failed"

/-- One reminder record, field for field as built in `setReminder`.
    `datetime`, `created_at`, `sent_at`, `updated_at` are the parsed instants
    behind the stored ISO strings; `errMsg` is the `error` field written on a
    failed delivery. -/
structure Reminder where
  id : String
  phone : String
  message : String
  datetime : Moment
  timezone : String := "UTC"
  recurring : Bool := false
  recurrence_type : Option String := none
  priority : String := "normal"
  status : RStatus := .active
  created_at : Moment
  sent : Bool := false
  sent_at : Option Moment := none
  updated_at : Option Moment := none
  errMsg : Option String := none
deriving DecidableEq, Repr

/-- The per-phone reminder map `this.reminders`. -/
abbrev Store := List (String × List Reminder)

/-- Errors thrown by the store operations. -/
inductive RErr
  | invalidFormat
  | pastTime
  | notFound
deriving DecidableEq, Repr

def isOkB : Except RErr Reminder → Bool
  | .ok _ => true
  | .error _ => false

structure SetOptions where
  timezone : String := "UTC"
  recurring : Bool := false
  recurrence_type : Option String := none
  priority : String := "normal"
deriving Repr

/-- `setReminder(phone, message, datetime, options)` (reminderService.js 15-62).
    The `datetime` argument carries the result of `moment(datetime)`:
    `none` when invalid.  `now` is the wall clock, `newId` the generated uuid.
    A throw leaves the store untouched, hence the `(result, store)` pair. -/
def setReminder (store : Store) (now : Moment) (newId : String)
    (phone message : String) (datetime : Option Moment)
    (opts : SetOptions := {}) : Except RErr Reminder × Store :=
  match datetime with
  | none => (.error .invalidFormat, store)
  | some reminderTime =>
    if reminderTime < now then (.error .pastTime, store)
    else
      let reminder : Reminder :=
        { id := newId, phone := phone, message := message,
          datetime := reminderTime, timezone := opts.timezone,
          recurring := opts.recurring,
          recurrence_type := opts.recurrence_type,
          priority := opts.priority, status := .active,
          created_at := now, sent := false }
      (.ok reminder, mset store phone (mgetD store phone [] ++ [reminder]))

structure ListOptions where
  status : String := "all"
  limit : Int := 50
  sort : String := "datetime"
deriving Repr

/-- `getUserReminders(phone, options)` (reminderService.js 64-99).
    The JS `Array.prototype.sort` with a numeric comparator is a stable sort,
    modelled by `List.insertionSort`. -/
def getUserReminders (store : Store) (phone : String)
    (opts : ListOptions := {}) : List Reminder :=
  let userReminders := mgetD store phone []
  let filtered :=
    if opts.status ≠ "all" then
      userReminders.filter (fun r => r.status.str == opts.status)
    else userReminders
  let sorted :=
    if opts.sort = "datetime" then
      filtered.insertionSort (fun a b => a.datetime ≤ b.datetime)
    else
      filtered.insertionSort (fun a b => a.created_at ≤ b.created_at)
  if opts.limit > 0 then sorted.take opts.limit.toNat else sorted

/-- `findIndex` followed by an in-place update of the found element:
    returns the updated element and the updated list, or `none` when no
    element satisfies `p`. -/
def replaceFirst (p : α → Bool) (f : α → α) : List α → Option (α × List α)
  | [] => none
  | x :: xs =>
    if p x then some (f x, f x :: xs)
    else (replaceFirst p f xs).map (fun y => (y.1, x :: y.2))

/-- `cancelReminder(phone, reminderId)` (reminderService.js 101-118):
    finds the first reminder with that exact id — regardless of its status —
    and sets `status = 'cancelled'`. -/
def cancelReminder (store : Store) (phone reminderId : String) :
    Except RErr Reminder × Store :=
  match replaceFirst (fun r => r.id == reminderId)
      (fun r => { r with status := .cancelled }) (mgetD store phone []) with
  | none => (.error .notFound, store)
  | some (r, lst) => (.ok r, mset store phone lst)

/-- The partial-update argument of `updateReminder`.  A present `datetime`
    patch carries the result of `moment(updates.datetime)` (`none` = invalid). -/
structure RUpdates where
  message : Option String := none
  priority : Option String := none
  datetime : Option (Option Moment) := none
deriving Repr

/-- `Object.assign(reminder, updates)` plus `updated_at` stamping, with the
    already-validated datetime patch `nt`. -/
def applyUpdates (r : Reminder) (u : RUpdates) (nt : Option Moment)
    (now : Moment) : Reminder :=
  let r := match u.message with | some m => { r with message := m } | none => r
  let r := match u.priority with | some p => { r with priority := p } | none => r
  let r := match nt with | some t => { r with datetime := t } | none => r
  { r with updated_at := some now }

/-- `updateReminder(phone, reminderId, updates)` (reminderService.js 120-153):
    a missing id throws `NotFound` first; a present `datetime` patch is then
    validated exactly like in `setReminder`; only afterwards are the fields
    assigned onto the stored record. -/
def updateReminder (store : Store) (now : Moment) (phone reminderId : String)
    (u : RUpdates) : Except RErr Reminder × Store :=
  if ((mgetD store phone []).find? (fun r => r.id == reminderId)).isNone then
    (.error .notFound, store)
  else
    match u.datetime with
    | some none => (.error .invalidFormat, store)
    | some (some newTime) =>
      if newTime < now then (.error .pastTime, store)
      else
        match replaceFirst (fun r => r.id == reminderId)
            (fun r => applyUpdates r u (some newTime) now)
            (mgetD store phone []) with
        | none => (.error .notFound, store)
        | some (r, lst) => (.ok r, mset store phone lst)
    | none =>
      match replaceFirst (fun r => r.id == reminderId)
          (fun r => applyUpdates r u none now) (mgetD store phone []) with
      | none => (.error .notFound, store)
      | some (r, lst) => (.ok r, mset store phone lst)

/-! ### Reminder dispatcher (checkReminders / sendReminder / scheduleNextRecurrence) -/

/-- The dispatcher environment: whether `this.whatsappService` was injected,
    and the outcome of `whatsappService.sendMessage` for each reminder's
    formatted text (the Notifier oracle), plus the uuid supply for successors. -/
structure Env where
  svcAvailable : Bool := true
  notifierOk : Reminder → Bool := fun _ => true
  freshId : Nat → String := fun n => toString n

/-- JS truthiness of `reminder.recurrence_type` (a non-empty string). -/
def recTruthy (r : Reminder) : Bool :=
  match r.recurrence_type with
  | some s => s ≠ ""
  | none => false

/-- The `switch (reminder.recurrence_type)` of `scheduleNextRecurrence`
    (reminderService.js 218-230): advance the prior `datetime` by one
    recurrence unit; an unknown type throws (caught: no successor). -/
def advanceUnit : String → Moment → Option Moment
  | "daily", t => some (t + msPerDay)
  | "weekly", t => some (t + msPerWeek)
  | "monthly", t => some (addOneMonth t)
  | _, _ => none

/-- `scheduleNextRecurrence(reminder)` (reminderService.js 213-249): builds the
    successor by spreading the (already sent-marked) original, with a fresh id,
    the advanced `datetime`, `sent=false`, `status='active'`, `created_at=now`.
    Its own try/catch turns an invalid recurrence type into no successor. -/
def scheduleNextRecurrence (now : Moment) (newId : String) (r : Reminder) :
    Option Reminder :=
  match r.recurrence_type with
  | none => none
  | some rt =>
    (advanceUnit rt r.datetime).map (fun nextTime =>
      { r with id := newId, datetime := nextTime, sent := false,
               status := .active, created_at := now })

/-- `sendReminder(reminder)` (reminderService.js 184-211) acting on one record:
    returns the mutated record and the successor appended by
    `scheduleNextRecurrence`, if any.  The catch block marks the record
    `failed` and stores the error message; no exception escapes. -/
def sendReminderStep (env : Env) (now : Moment) (newId : String)
    (r : Reminder) : Reminder × Option Reminder :=
  if !env.svcAvailable then
    ({ r with status := .failed,
              errMsg := some "WhatsApp service not available" }, none)
  else if !env.notifierOk r then
    ({ r with status := .failed,
              errMsg := some "Failed to send WhatsApp message" }, none)
  else
    let r := { r with sent := true, sent_at := some now }
    if r.recurring && recTruthy r then
      (r, scheduleNextRecurrence now newId r)
    else
      ({ r with status := .sent }, none)

/-- The due test of checkReminders (reminderService.js 166):
    `now.isSameOrAfter(reminderTime) && now.diff(reminderTime, 'minutes') <= 1`.
    moment's `diff` truncates toward zero; under `now >= reminderTime` that is
    a floor division of the millisecond difference. -/
def dueNow (now : Moment) (r : Reminder) : Bool :=
  r.datetime ≤ now && (now - r.datetime).fdiv msPerMinute ≤ 1

/-- Whether the inner loop of `checkReminders` processes record `r`. -/
def processCond (now : Moment) (r : Reminder) : Bool :=
  r.status == .active && !r.sent && dueNow now r

/-- The `for (const reminder of userReminders)` loop of `checkReminders`
    over one phone's array.  JS array iteration is by increasing index and
    sees elements pushed during the loop, so the loop is modelled with an
    explicit index; `fuel` bounds the step count (the caller passes enough
    fuel for every element present at loop start to be visited).
    Returns the final array, the updated sent counter and the uuid counter. -/
def tickPhone (env : Env) (now : Moment) :
    Nat → Nat → Nat → Nat → List Reminder → List Reminder × Nat × Nat
  | 0, _, k, cnt, lst => (lst, cnt, k)
  | fuel + 1, i, k, cnt, lst =>
    if h : i < lst.length then
      if processCond now (lst.get ⟨i, h⟩) then
        tickPhone env now fuel (i + 1)
          (if (sendReminderStep env now (env.freshId k) (lst.get ⟨i, h⟩)).2.isSome
           then k + 1 else k)
          (cnt + 1)
          (lst.set i (sendReminderStep env now (env.freshId k) (lst.get ⟨i, h⟩)).1
            ++ (sendReminderStep env now (env.freshId k) (lst.get ⟨i, h⟩)).2.toList)
      else
        tickPhone env now fuel (i + 1) k cnt lst
    else (lst, cnt, k)

/-- `checkReminders()` (reminderService.js 155-182): scan every phone's array,
    deliver what is due, return the updated store, the value of `sentCount`
    and the uuid counter.  Note `sentCount++` runs after every `sendReminder`
    call, successful or not, since `sendReminder` swallows its errors. -/
def checkReminders (env : Env) (now : Moment) (k : Nat) :
    Store → Store × Nat × Nat
  | [] => ([], 0, k)
  | (ph, lst) :: rest =>
    ((ph, (tickPhone env now (2 * lst.length + 2) 0 k 0 lst).1) ::
       (checkReminders env now
         (tickPhone env now (2 * lst.length + 2) 0 k 0 lst).2.2 rest).1,
     (tickPhone env now (2 * lst.length + 2) 0 k 0 lst).2.1 +
       (checkReminders env now
         (tickPhone env now (2 * lst.length + 2) 0 k 0 lst).2.2 rest).2.1,
     (checkReminders env now
       (tickPhone env now (2 * lst.length + 2) 0 k 0 lst).2.2 rest).2.2)

/-! ### /cancel command handler (messageHandler.js handleCancelReminderCommand) -/

/-- The lookup step of `handleCancelReminderCommand` (messageHandler.js):
    list the recipient's *active* reminders and find the first whose id
    starts with the trimmed argument.  A `none` result is answered with the
    "Reminder not found" message. -/
def cancelCommandLookup (store : Store) (phone args : String) :
    Option Reminder :=
  (getUserReminders store phone { status := "active" }).find?
    (fun r => args.trim.isPrefixOf r.id)

/-! ### Conversation history (mistralService.js chat / clearConversationHistory) -/

structure ChatMsg where
  role : String
  content : String
deriving DecidableEq, Repr

abbrev HistMap := List (String × List ChatMsg)

/-- The default `system_prompt` of `chat`. -/
def systemPrompt : String :=
  "You are a helpful WhatsApp assistant. Be concise, friendly, and helpful. Respond in a conversational manner suitable for messaging."

def sysMsg : ChatMsg := { role := "system", content := systemPrompt }

def userMsg (c : String) : ChatMsg := { role := "user", content := c }

def asstMsg (c : String) : ChatMsg := { role := "assistant", content := c }

/-- The request `messages` array of `chat` (mistralService.js 79-94):
    system prompt, stored history, current user message; then
    `messages.splice(1, messages.length - 21)` drops the oldest entries after
    the system prompt once the array exceeds 21 elements. -/
def chatMessages (history : List ChatMsg) (message : String) : List ChatMsg :=
  let tail := history ++ [userMsg message]
  let messages := sysMsg :: tail
  if messages.length > 21 then
    sysMsg :: tail.drop (messages.length - 21)
  else messages

/-- One call of `chat(userPhone, message)` (mistralService.js 62-132).
    `reply` is the assistant message extracted from the API response
    (`none` models a failed call or an empty choice list, which throws after
    the map entry was initialised but before the history push).
    Returns the request `messages` array and the updated stored map. -/
def chatStep (m : HistMap) (userPhone message : String)
    (reply : Option String) : List ChatMsg × HistMap :=
  let history := mgetD m userPhone []
  let messages := chatMessages history message
  match reply with
  | some assistantMessage =>
    (messages,
     mset m userPhone (history ++ [userMsg message, asstMsg assistantMessage]))
  | none => (messages, mset m userPhone history)

/-- `clearConversationHistory(userPhone)` (mistralService.js 241-246). -/
def clearConversationHistory (m : HistMap) (userPhone : String) : HistMap :=
  if m.any (fun e => e.1 == userPhone) then mdel m userPhone else m

/-! ### Intent classification (messageHandler.js detectIntent) -/

/-- `message.toLowerCase()` as a character list. -/
def lowerChars (s : String) : List Char := s.toList.map Char.toLower

/-- JS `String.prototype.includes` (substring occurrence). -/
def inclSub : List Char → List Char → Bool
  | [], nee => nee.isEmpty
  | c :: t, nee => nee.isPrefixOf (c :: t) || inclSub t nee

/-- The regex test `/remind.*to/.test(lowerMessage)`: some occurrence of
    "remind" followed (anywhere later) by "to". -/
def remindThenTo : List Char → Bool
  | [] => false
  | c :: t =>
    ("remind".toList.isPrefixOf (c :: t) && inclSub ((c :: t).drop 6) "to".toList)
      || remindThenTo t

inductive Intent
  | image_generation
  | reminder_setting
  | question
  | greeting
  | chat
deriving DecidableEq, Repr

/-- Image-generation keywords (messageHandler.js 318-322 in detectIntent). -/
def imageCue (l : List Char) : Bool :=
  inclSub l "generate image".toList || inclSub l "create image".toList ||
  inclSub l "draw".toList || inclSub l "picture".toList ||
  inclSub l "image of".toList

/-- Reminder keywords. -/
def reminderCue (l : List Char) : Bool :=
  inclSub l "remind me".toList || inclSub l "reminder".toList ||
  inclSub l "schedule".toList || remindThenTo l

/-- Question keywords. -/
def questionCue (l : List Char) : Bool :=
  "what".toList.isPrefixOf l || "how".toList.isPrefixOf l ||
  "why".toList.isPrefixOf l || "when".toList.isPrefixOf l ||
  "where".toList.isPrefixOf l || inclSub l "?".toList

/-- Greeting keywords. -/
def greetingCue (l : List Char) : Bool :=
  inclSub l "hello".toList || inclSub l "hi".toList ||
  inclSub l "hey".toList || inclSub l "good morning".toList ||
  inclSub l "good afternoon".toList || inclSub l "good evening".toList

/-- `detectIntent(message)` (messageHandler.js 314-355). -/
def detectIntent (message : String) : Intent :=
  let lowerMessage := lowerChars message
  if imageCue lowerMessage then .image_generation
  else if reminderCue lowerMessage then .reminder_setting
  else if questionCue lowerMessage then .question
  else if greetingCue lowerMessage then .greeting
  else .chat

/-! ### Natural-language time parsing (reminderService.js parseNaturalLanguageTime)

The regex engine is abstracted: a `TimeText` records, for each of the four
regular expressions the source applies to the lowercased text, whether and
with which capture groups it matches, plus the `moment(text)` fallback.
The branch structure, the 12-to-24-hour conversion and the date arithmetic
are embedded from the source. -/

inductive Meridiem
  | am
  | pm
deriving DecidableEq, Repr

inductive TimeUnit
  | minute
  | hour
  | day
deriving DecidableEq, Repr

def TimeUnit.ms : TimeUnit → Int
  | .minute => msPerMinute
  | .hour => msPerHour
  | .day => msPerDay

/-- Regex-level view of the input text of `parseNaturalLanguageTime`. -/
structure TimeText where
  /-- `lowerText.includes('tomorrow')` -/
  hasTomorrow : Bool := false
  /-- captures of `(\d{1,2}):?(\d{2})?\s*(am|pm)?` : hour, optional minutes,
      optional meridiem -/
  tomorrowTime : Option (Nat × Option Nat × Option Meridiem) := none
  /-- captures of `in (\d+) (minute|hour|day)s?` -/
  inSpec : Option (Nat × TimeUnit) := none
  /-- captures of `at (\d{1,2}):(\d{2})\s*(am|pm)?` -/
  atTime : Option (Nat × Nat × Option Meridiem) := none
  /-- captures of `(\d{1,2})\/(\d{1,2})\/(\d{4})` : month, day, year -/
  dateSpec : Option (Nat × Nat × Nat) := none
  /-- result of the `moment(text)` fallback (`none` = invalid) -/
  fallback : Option Moment := none
deriving Repr

/-- The 12-to-24-hour conversion of the source (reminderService.js 264-266 and
    287-289): `if (isPM && hour < 12) finalHour += 12;
    if (!isPM && hour === 12) finalHour = 0;` where `isPM` is
    `timeMatch[3] === 'pm'`. -/
def finalHour (hour : Nat) (mer : Option Meridiem) : Nat :=
  let isPM := mer = some .pm
  let f := if isPM ∧ hour < 12 then hour + 12 else hour
  if ¬isPM ∧ hour = 12 then 0 else f

/-- `parseNaturalLanguageTime(text)` (reminderService.js 251-316) with the
    wall clock injected.  `none` models returning an invalid moment. -/
def parseNaturalLanguageTime (tt : TimeText) (now : Moment) : Option Moment :=
  if tt.hasTomorrow then
    match tt.tomorrowTime with
    | some (hour, mOpt, mer) =>
      some (setHMS (now + msPerDay) (finalHour hour mer) (mOpt.getD 0) 0)
    | none => parseAfterTomorrow tt now
  else parseAfterTomorrow tt now
where
  /-- The branches after the `tomorrow` one, shared by the fall-through. -/
  parseAfterTomorrow (tt : TimeText) (now : Moment) : Option Moment :=
    match tt.inSpec with
    | some (amount, unit) => some (now + amount * unit.ms)
    | none =>
      match tt.atTime with
      | some (hour, minute, mer) =>
        let targetTime := setHMS now (finalHour hour mer) minute 0
        some (if targetTime < now then targetTime + msPerDay else targetTime)
      | none =>
        match tt.dateSpec with
        | some (month, day, year) => momentYMD year month day
        | none => tt.fallback

/-! ### Result of `sendReminder` on one record, ignoring the successor

The first component of `sendReminderStep` does not depend on the uuid drawn
for a possible successor; `deliveredMark` names it with a dummy id. -/

def deliveredMark (env : Env) (now : Moment) (r : Reminder) : Reminder :=
  (sendReminderStep env now "" r).1

/-! ### Spec-side definitions used for refinement comparisons -/

/-- Modelled from the spec: the 12-to-24-hour conversion rule exactly as the
    spec sentence states it — hour 12 with "am" maps to 0, hour below 12 with
    "pm" maps to hour + 12, otherwise the hour is unchanged. -/
def specFinalHourC8 (hour : Nat) (mer : Option Meridiem) : Nat :=
  if hour = 12 ∧ mer = some .am then 0
  else if hour < 12 ∧ mer = some .pm then hour + 12
  else hour

/-- Modelled from the spec: the amended conversion rule — hour 12 maps to 0
    whenever the meridiem is not "pm" (so also when it is absent); hour below
    12 with "pm" maps to hour + 12; otherwise the hour is unchanged. -/
def amendedFinalHourC8 (hour : Nat) (mer : Option Meridiem) : Nat :=
  if hour = 12 ∧ mer ≠ some .pm then 0
  else if hour < 12 ∧ mer = some .pm then hour + 12
  else hour

/-- Modelled from the spec: "today at that time; if that time has already
    passed today, roll to tomorrow same time", at the source's granularity
    (seconds zeroed, sub-second of "now" kept). -/
def specAtResolve (now : Moment) (fh minute : Nat) : Moment :=
  let today := setHMS now fh minute 0
  if today < now then today + msPerDay else today

/-! ### Concrete scenario data used by counterexamples and witnesses -/

/-- An active reminder used by the double-cancel scenario. -/
def cexCancelR : Reminder :=
  { id := "abc12345", phone := "p1", message := "buy milk",
    datetime := 1000000, created_at := 0 }

def cexCancelStore : Store := [("p1", [cexCancelR])]

/-- The three due reminders of the failing-notifier tick scenario. -/
def cexTickR1 : Reminder :=
  { id := "a", phone := "p1", message := "m1", datetime := 1000000,
    created_at := 0 }

def cexTickR2 : Reminder := { cexTickR1 with id := "b", message := "m2" }

def cexTickR3 : Reminder := { cexTickR1 with id := "c", message := "m3" }

def cexTickStore : Store := [("p1", [cexTickR1, cexTickR2, cexTickR3])]

/-- Notifier that throws exactly on the second reminder of the scenario. -/
def cexTickEnv : Env := { notifierOk := fun r => r.id != "b" }

/-- A recurring daily reminder for the successor scenario. -/
def cexRecurR : Reminder :=
  { id := "r1", phone := "p1", message := "standup", datetime := 500,
    recurring := true, recurrence_type := some "daily", created_at := 0 }

/-- A reminder 90 seconds overdue at instant 1000000. -/
def cexLateR : Reminder :=
  { id := "z", phone := "p1", message := "late", datetime := 1000000 - 90000,
    created_at := 0 }

/-- Eleven successful chat exchanges for one recipient. -/
def cexChatMap : HistMap :=
  (List.range 11).foldl (fun m _ => (chatStep m "a" "hi there" (some "ok")).2) []

/-! ### Helper lemmas about the map model -/

theorem find?_append_of_any_false {α : Type} (p : α → Bool) :
    ∀ (l rest : List α), l.any p = false →
      (l ++ rest).find? p = rest.find? p := by
  intro l rest h
  induction l with
  | nil => simp
  | cons e t ih =>
    simp only [List.any_cons, Bool.or_eq_false_iff] at h
    simp [List.find?_cons, h.1, ih h.2]

theorem find?_map_mset {α : Type} (k : String) (v : α) :
    ∀ m : List (String × α), m.any (fun e => e.1 == k) = true →
      (m.map fun e => if e.1 == k then (k, v) else e).find?
        (fun e => e.1 == k) = some (k, v) := by
  intro m h
  induction m with
  | nil => simp at h
  | cons e t ih =>
    rw [List.map_cons]
    by_cases he : (e.1 == k) = true
    · rw [if_pos he]
      exact List.find?_cons_of_pos _ (by simp)
    · rw [if_neg he, List.find?_cons_of_neg _ (by simpa using he)]
      simp only [List.any_cons, he, Bool.false_or] at h
      exact ih h

theorem mget_mset_self {α : Type} (m : List (String × α)) (k : String) (v : α) :
    mget (mset m k v) k = some v := by
  unfold mget mset
  by_cases h : m.any (fun e => e.1 == k) = true
  · rw [if_pos h, find?_map_mset k v m h]
    rfl
  · rw [if_neg h]
    rw [find?_append_of_any_false _ m [(k, v)]
      (by simp only [Bool.not_eq_true] at h; exact h)]
    rw [List.find?_cons_of_pos _ (by simp)]
    rfl

theorem mget_mdel_ne {α : Type} (m : List (String × α)) (a b : String)
    (hne : (b == a) = false) : mget (mdel m a) b = mget m b := by
  unfold mget mdel
  induction m with
  | nil => simp
  | cons e t ih =>
    by_cases hb : e.1 == b
    · have : (e.1 != a) = true := by
        have heb : e.1 = b := by simpa using hb
        subst heb
        simpa using hne
      simp [List.filter_cons, this, List.find?_cons, hb]
    · by_cases ha : e.1 != a
      · simp only [List.filter_cons, ha, if_true]
        simp only [List.find?_cons, hb, cond_false] at ih ⊢
        exact ih
      · simp only [List.filter_cons, ha, if_false]
        simp only [List.find?_cons, hb, cond_false]
        exact ih

theorem mset_any_self {α : Type} (m : List (String × α)) (k : String) (v : α) :
    (mset m k v).any (fun e => e.1 == k) = true := by
  unfold mset
  by_cases h : m.any (fun e => e.1 == k) = true
  · rw [if_pos h]
    rcases List.any_eq_true.mp h with ⟨e, he, hek⟩
    exact List.any_eq_true.mpr
      ⟨(k, v), List.mem_map.mpr ⟨e, he, by simp [hek]⟩, by simp⟩
  · rw [if_neg h]
    exact List.any_eq_true.mpr ⟨(k, v), by simp, by simp⟩

theorem mset_entry_self {α : Type} (m : List (String × α)) (k : String) (v : α) :
    ∀ e ∈ mset m k v, (e.1 == k) = true → e = (k, v) := by
  intro e he hek
  unfold mset at he
  by_cases h : m.any (fun e => e.1 == k) = true
  · rw [if_pos h] at he
    rcases List.mem_map.mp he with ⟨a, _, rfl⟩
    by_cases ha : (a.1 == k) = true
    · rw [if_pos ha]
    · rw [if_neg ha] at hek ⊢
      exact absurd hek ha
  · rw [if_neg h] at he
    rcases List.mem_append.mp he with h1 | h1
    · exact absurd (List.any_eq_true.mpr ⟨e, h1, hek⟩) h
    · simpa using h1

theorem mset_eq_self_of {α : Type} (l : List (String × α)) (k : String) (v : α)
    (hany : l.any (fun e => e.1 == k) = true)
    (hent : ∀ e ∈ l, (e.1 == k) = true → e = (k, v)) :
    mset l k v = l := by
  unfold mset
  rw [if_pos hany]
  have hmap : ∀ e ∈ l, (if e.1 == k then (k, v) else e) = id e := by
    intro e he
    by_cases hek : (e.1 == k) = true
    · rw [if_pos hek]
      exact (hent e he hek).symm
    · rw [if_neg hek]
      rfl
  rw [List.map_congr_left hmap, List.map_id]

theorem mset_mset_self {α : Type} (m : List (String × α)) (k : String) (v : α) :
    mset (mset m k v) k v = mset m k v :=
  mset_eq_self_of _ k v (mset_any_self m k v) (mset_entry_self m k v)

theorem find?_isNone_of_any {α : Type} (p : α → Bool) :
    ∀ l : List α, l.any p = true → (l.find? p).isNone = false := by
  intro l h
  induction l with
  | nil => simp at h
  | cons x xs ih =>
    by_cases hp : p x = true
    · rw [List.find?_cons_of_pos _ hp]
      rfl
    · rw [List.find?_cons_of_neg _ (by simpa using hp)]
      simp only [List.any_cons, hp, Bool.false_or] at h
      exact ih h

theorem replaceFirst_isSome {α : Type} (p : α → Bool) (f : α → α) :
    ∀ l : List α, l.any p = true →
      ∃ y l2, replaceFirst p f l = some (y, l2) := by
  intro l h
  induction l with
  | nil => simp at h
  | cons x xs ih =>
    by_cases hp : p x = true
    · exact ⟨f x, f x :: xs, by simp [replaceFirst, hp]⟩
    · simp only [List.any_cons, hp, Bool.false_or] at h
      obtain ⟨y, l2, hy⟩ := ih h
      exact ⟨y, x :: l2, by simp [replaceFirst, hp, hy]⟩

/-- Cancelling is stable: a record already set to `cancelled` is found again
    by the same id lookup and setting `cancelled` again changes nothing. -/
theorem replaceFirst_cancel_again (rid : String) :
    ∀ (lst lst2 : List Reminder) (r : Reminder),
      replaceFirst (fun x => x.id == rid)
        (fun x => { x with status := RStatus.cancelled }) lst = some (r, lst2) →
      r.status = .cancelled ∧
      replaceFirst (fun x => x.id == rid)
        (fun x => { x with status := RStatus.cancelled }) lst2 = some (r, lst2) := by
  intro lst
  induction lst with
  | nil => intro lst2 r h; simp [replaceFirst] at h
  | cons x xs ih =>
    intro lst2 r h
    unfold replaceFirst at h
    by_cases hp : (x.id == rid) = true
    · rw [if_pos hp, Option.some_inj, Prod.mk.injEq] at h
      obtain ⟨hr, hl⟩ := h
      subst hr
      subst hl
      refine ⟨rfl, ?_⟩
      unfold replaceFirst
      rw [if_pos (show (({ x with status := RStatus.cancelled } : Reminder).id
        == rid) = true from hp)]
    · rw [if_neg hp] at h
      cases hrec : replaceFirst (fun x => x.id == rid)
          (fun x => { x with status := RStatus.cancelled }) xs with
      | none => rw [hrec] at h; exact absurd h (by simp)
      | some pr =>
        obtain ⟨y, l⟩ := pr
        rw [hrec] at h
        have h2 : some (y, x :: l) = some (r, lst2) := h
        rw [Option.some_inj, Prod.mk.injEq] at h2
        obtain ⟨hr, hl⟩ := h2
        obtain ⟨hst, hagain⟩ := ih l y hrec
        subst hr
        subst hl
        refine ⟨hst, ?_⟩
        unfold replaceFirst
        rw [if_neg hp, hagain]
        rfl

/-! ### Claim theorems -/

/-- Claim C1, counterexample: after cancelling reminder `abc12345` once, a
    second `cancelReminder` call for the same (recipient, id) does not fail
    with NotFound — it succeeds again and returns the already-cancelled
    record, because `cancelReminder` matches by id only, not by status. -/
theorem C1_second_cancel_not_notfound_cex :
    (cancelReminder cexCancelStore "p1" "abc12345").1 =
      .ok { cexCancelR with status := .cancelled }
    ∧ (cancelReminder (cancelReminder cexCancelStore "p1" "abc12345").2
        "p1" "abc12345").1 =
      .ok { cexCancelR with status := .cancelled } := by
  constructor <;> rfl

/-- Claim C1 (amended): the first cancel of an existing reminder id succeeds
    and returns the record with status `cancelled`; a second store-level
    `cancelReminder` for the same (recipient, id) also succeeds and returns
    the same cancelled record, leaving the store unchanged, because the store
    lookup matches by id regardless of status.  The NotFound outcome on a
    second cancel arises only in the `/cancel` command handler, whose lookup
    searches active reminders only. -/
theorem C1_cancel_twice_corrected :
    (∀ (store store1 : Store) (phone rid : String) (r : Reminder),
      cancelReminder store phone rid = (.ok r, store1) →
      r.status = .cancelled ∧
      cancelReminder store1 phone rid = (.ok r, store1))
    ∧ cancelCommandLookup (cancelReminder cexCancelStore "p1" "abc12345").2
        "p1" "abc12345" = none := by
  constructor
  · intro store store1 phone rid r h
    unfold cancelReminder at h
    cases hrf : replaceFirst (fun x => x.id == rid)
        (fun x => { x with status := RStatus.cancelled })
        (mgetD store phone []) with
    | none => rw [hrf] at h; exact absurd h (by simp)
    | some pr =>
      obtain ⟨y, l⟩ := pr
      rw [hrf] at h
      rw [Prod.mk.injEq] at h
      obtain ⟨h1, h2⟩ := h
      have hok : y = r := by
        have := h1
        injection this
      subst hok
      obtain ⟨hst, hagain⟩ := replaceFirst_cancel_again rid _ l y hrf
      refine ⟨hst, ?_⟩
      unfold cancelReminder
      have hm : mgetD store1 phone [] = l := by
        rw [← h2]
        unfold mgetD
        rw [mget_mset_self]
        rfl
      rw [hm, hagain, ← h2]
      show (Except.ok y, mset (mset store phone l) phone l)
        = (Except.ok y, mset store phone l)
      rw [mset_mset_self]
  · rfl

/-- Claim C1 witness: the concrete double-cancel scenario instantiating the
    universally quantified part. -/
theorem C1_cancel_twice_witness :
    cancelReminder cexCancelStore "p1" "abc12345" =
      (.ok { cexCancelR with status := .cancelled },
       [("p1", [{ cexCancelR with status := .cancelled }])])
    ∧ ({ cexCancelR with status := .cancelled } : Reminder).status = .cancelled
    ∧ cancelReminder [("p1", [{ cexCancelR with status := .cancelled }])]
        "p1" "abc12345" =
      (.ok { cexCancelR with status := .cancelled },
       [("p1", [{ cexCancelR with status := .cancelled }])]) := by
  refine ⟨rfl, ?_, ?_⟩
  · exact (C1_cancel_twice_corrected.1 cexCancelStore _ "p1" "abc12345" _ rfl).1
  · exact (C1_cancel_twice_corrected.1 cexCancelStore _ "p1" "abc12345" _ rfl).2

/-- Claim C2, counterexample: a recurring daily reminder delivered
    successfully (sent flag set, successor spawned) is left with status
    `active` — the source only sets `status = 'sent'` in the non-recurring
    branch, so the delivered original is still in `active` status. -/
theorem C2_original_left_active_cex :
    (sendReminderStep {} 1000 "n2" cexRecurR).1.sent = true
    ∧ (sendReminderStep {} 1000 "n2" cexRecurR).2.isSome = true
    ∧ (sendReminderStep {} 1000 "n2" cexRecurR).1.status = .active := by
  refine ⟨rfl, rfl, rfl⟩

/-- Claim C2 (amended): for every recurring reminder the dispatcher delivers
    successfully, exactly one successor is created with the same text,
    recipient and recurrence, whose dueAt equals the delivered reminder's
    prior dueAt advanced by one recurrence unit (computed from the prior
    dueAt, not from wall-clock now); the delivered original gets its sent
    flag set — which keeps the dispatcher from delivering it again — but its
    status remains `active` (it is not moved out of `active`). -/
theorem C2_recurring_successor_corrected
    (env : Env) (now : Moment) (newId : String) (r : Reminder) (rt : String)
    (hsvc : env.svcAvailable = true) (hnot : env.notifierOk r = true)
    (hrec : r.recurring = true) (hrt : r.recurrence_type = some rt)
    (hmem : rt ∈ (["daily", "weekly", "monthly"] : List String)) :
    ∃ nt, advanceUnit rt r.datetime = some nt ∧
      sendReminderStep env now newId r =
        ({ r with sent := true, sent_at := some now },
         some { r with id := newId, datetime := nt, sent := false,
                       status := .active, created_at := now,
                       sent_at := some now }) := by
  fin_cases hmem
  · exact ⟨r.datetime + msPerDay, rfl, by
      simp [sendReminderStep, scheduleNextRecurrence, recTruthy, advanceUnit,
        hsvc, hnot, hrec, hrt]⟩
  · exact ⟨r.datetime + msPerWeek, rfl, by
      simp [sendReminderStep, scheduleNextRecurrence, recTruthy, advanceUnit,
        hsvc, hnot, hrec, hrt]⟩
  · exact ⟨addOneMonth r.datetime, rfl, by
      simp [sendReminderStep, scheduleNextRecurrence, recTruthy, advanceUnit,
        hsvc, hnot, hrec, hrt]⟩

/-- Claim C2 witness: a concrete recurring daily reminder delivered at
    instant 1000 spawns exactly one successor due one day after the prior
    dueAt 500, while the original keeps status `active` with the sent flag
    set. -/
theorem C2_recurring_successor_witness :
    cexRecurR.recurring = true ∧
    advanceUnit "daily" cexRecurR.datetime = some 86400500 ∧
    sendReminderStep {} 1000 "n2" cexRecurR =
      ({ cexRecurR with sent := true, sent_at := some 1000 },
       some { cexRecurR with id := "n2", datetime := 86400500, sent := false,
                             status := .active, created_at := 1000,
                             sent_at := some 1000 }) := by
  refine ⟨rfl, ?_, ?_⟩
  · obtain ⟨nt, hnt, _⟩ := C2_recurring_successor_corrected {} 1000 "n2"
      cexRecurR "daily" rfl rfl rfl rfl (by simp)
    have hv : nt = 86400500 := by
      have : advanceUnit "daily" cexRecurR.datetime
          = some (cexRecurR.datetime + msPerDay) := rfl
      rw [this] at hnt
      simpa [cexRecurR, msPerDay] using hnt.symm
    rw [← hv]
    exact hnt
  · obtain ⟨nt, hnt, heq⟩ := C2_recurring_successor_corrected {} 1000 "n2"
      cexRecurR "daily" rfl rfl rfl rfl (by simp)
    have hv : nt = 86400500 := by
      have : advanceUnit "daily" cexRecurR.datetime
          = some (cexRecurR.datetime + msPerDay) := rfl
      rw [this] at hnt
      simpa [cexRecurR, msPerDay] using hnt.symm
    rw [← hv]
    exact heq

/-- Claim C4, counterexample: a create whose dueAt is exactly equal to "now"
    succeeds (the source only rejects `isBefore(now)`, a strict comparison),
    and so does an update patching dueAt to exactly "now" — contradicting
    "equal to or before now always fails with InvalidTime". -/
theorem C4_equal_now_accepted_cex :
    isOkB (setReminder [] 0 "i" "p1" "m" (some 0)).1 = true
    ∧ isOkB (updateReminder [("p1", [cexCancelR])] 42 "p1" "abc12345"
        { datetime := some (some 42) }).1 = true := by
  constructor <;> rfl

/-- Claim C4 (amended): `setReminder` and a dueAt-patching `updateReminder`
    fail with the past-time error exactly when the supplied dueAt is strictly
    before "now"; a dueAt equal to "now" or in the future is accepted (for an
    update, provided the reminder id exists for that recipient). -/
theorem C4_invalid_time_corrected :
    (∀ (store : Store) (now : Moment) (newId phone msg : String)
        (opts : SetOptions) (t : Moment), t < now →
        (setReminder store now newId phone msg (some t) opts).1 =
          .error .pastTime)
    ∧ (∀ (store : Store) (now : Moment) (newId phone msg : String)
        (opts : SetOptions) (t : Moment), ¬t < now →
        isOkB (setReminder store now newId phone msg (some t) opts).1 = true)
    ∧ (∀ (store : Store) (now : Moment) (phone rid : String) (u : RUpdates)
        (t : Moment),
        (mgetD store phone []).any (fun r => r.id == rid) = true →
        u.datetime = some (some t) → t < now →
        (updateReminder store now phone rid u).1 = .error .pastTime)
    ∧ (∀ (store : Store) (now : Moment) (phone rid : String) (u : RUpdates)
        (t : Moment),
        (mgetD store phone []).any (fun r => r.id == rid) = true →
        u.datetime = some (some t) → ¬t < now →
        isOkB (updateReminder store now phone rid u).1 = true) := by
  refine ⟨?_, ?_, ?_, ?_⟩
  · intro store now newId phone msg opts t ht
    simp only [setReminder]
    rw [if_pos ht]
  · intro store now newId phone msg opts t ht
    simp only [setReminder]
    rw [if_neg ht]
    rfl
  · intro store now phone rid u t hany hdt ht
    have hnone := find?_isNone_of_any (fun r : Reminder => r.id == rid) _ hany
    simp only [updateReminder, hdt, hnone, Bool.false_eq_true, if_false]
    rw [if_pos ht]
  · intro store now phone rid u t hany hdt ht
    have hnone := find?_isNone_of_any (fun r : Reminder => r.id == rid) _ hany
    simp only [updateReminder, hdt, hnone, Bool.false_eq_true, if_false]
    rw [if_neg ht]
    obtain ⟨y, l2, hy⟩ := replaceFirst_isSome
      (fun r => r.id == rid) (fun r => applyUpdates r u (some t) now)
      (mgetD store phone []) hany
    rw [hy]
    rfl

/-- Claim C4 witness: a concrete strictly-past create is rejected with the
    past-time error. -/
theorem C4_invalid_time_witness :
    ((0 : Moment) < 5)
    ∧ (setReminder [] 5 "i" "p1" "m" (some 0)).1 = .error .pastTime :=
  ⟨by decide, C4_invalid_time_corrected.1 [] 5 "i" "p1" "m" {} 0 (by decide)⟩

/-- Either an update leaves the store unchanged, or it returned ok:
    every throwing branch of `updateReminder` pairs its error with the
    untouched input store. -/
theorem updateReminder_snd_of_not_ok (store : Store) (now : Moment)
    (phone rid : String) (u : RUpdates) :
    (updateReminder store now phone rid u).2 = store
    ∨ isOkB (updateReminder store now phone rid u).1 = true := by
  unfold updateReminder
  split
  · exact Or.inl rfl
  · split
    · exact Or.inl rfl
    · split
      · exact Or.inl rfl
      · split
        · exact Or.inl rfl
        · exact Or.inr rfl
    · split
      · exact Or.inl rfl
      · exact Or.inr rfl

/-- Claim C10: when an update fails — NotFound, unparseable patch datetime,
    or a patch datetime not in the future — no stored reminder is modified:
    the store returned by `updateReminder` equals the input store. -/
theorem C10_update_failure_preserves_store
    (store : Store) (now : Moment) (phone rid : String) (u : RUpdates)
    (e : RErr) (h : (updateReminder store now phone rid u).1 = .error e) :
    (updateReminder store now phone rid u).2 = store := by
  rcases updateReminder_snd_of_not_ok store now phone rid u with hs | hok
  · exact hs
  · rw [h] at hok
    exact absurd hok (by simp [isOkB])

/-- Claim C10 witness: updating a nonexistent id on a concrete store fails
    with NotFound and leaves the store equal to its input. -/
theorem C10_update_failure_witness :
    (updateReminder [("p1", [cexCancelR])] 0 "p1" "nope" {}).1 =
      .error .notFound
    ∧ (updateReminder [("p1", [cexCancelR])] 0 "p1" "nope" {}).2 =
      [("p1", [cexCancelR])] :=
  ⟨rfl,
   C10_update_failure_preserves_store [("p1", [cexCancelR])] 0 "p1" "nope" {}
     .notFound rfl⟩

/-- Claim C6, counterexample: after 11 successful chat exchanges the stored
    per-recipient history holds 22 messages — the 10-exchange (20-message)
    cap applies only to the request array built per call, never to the
    stored history, which grows without bound. -/
theorem C6_history_unbounded_cex :
    (mgetD cexChatMap "a" []).length = 22
    ∧ ¬(mgetD cexChatMap "a" []).length ≤ 20 := by
  constructor
  · rfl
  · rw [show (mgetD cexChatMap "a" []).length = 22 from rfl]
    decide

/-- Claim C6 (amended): the request messages array sent to the model never
    exceeds 21 entries and always starts with the system instruction (the
    splice drops the oldest turns after it); but the stored per-recipient
    history itself is never truncated — each successful exchange appends two
    messages to it unconditionally; clearing recipient A's history leaves
    recipient B's history unchanged. -/
theorem C6_history_cap_corrected :
    (∀ (m : HistMap) (ph msg : String) (r : Option String),
      ((chatStep m ph msg r).1).length ≤ 21)
    ∧ (∀ (m : HistMap) (ph msg : String) (r : Option String),
      ((chatStep m ph msg r).1).head? = some sysMsg)
    ∧ (∀ (m : HistMap) (ph msg a : String),
      mgetD ((chatStep m ph msg (some a)).2) ph []
        = mgetD m ph [] ++ [userMsg msg, asstMsg a])
    ∧ (∀ (m : HistMap) (a b : String), (b == a) = false →
      mget (clearConversationHistory m a) b = mget m b) := by
  have hfst : ∀ (m : HistMap) (ph msg : String) (r : Option String),
      (chatStep m ph msg r).1 = chatMessages (mgetD m ph []) msg := by
    intro m ph msg r
    cases r <;> rfl
  refine ⟨?_, ?_, ?_, ?_⟩
  · intro m ph msg r
    rw [hfst]
    unfold chatMessages
    dsimp only
    split
    · simp only [List.length_cons, List.length_drop]
      omega
    · simp only [List.length_cons, List.length_append] at *
      omega
  · intro m ph msg r
    rw [hfst]
    unfold chatMessages
    dsimp only
    split
    · rfl
    · rfl
  · intro m ph msg a
    show mgetD (mset m ph (mgetD m ph [] ++ [userMsg msg, asstMsg a])) ph [] = _
    unfold mgetD
    rw [mget_mset_self]
    rfl
  · intro m a b hne
    unfold clearConversationHistory
    split
    · exact mget_mdel_ne m a b hne
    · rfl

/-- Claim C6 witness: clearing recipient a leaves recipient b's stored
    history untouched, on a concrete two-recipient map. -/
theorem C6_history_cap_witness :
    (("b" == "a") = false)
    ∧ mget (clearConversationHistory
        [("a", [userMsg "x"]), ("b", [userMsg "y"])] "a") "b"
      = mget [("a", [userMsg "x"]), ("b", [userMsg "y"])] "b" :=
  ⟨by decide,
   C6_history_cap_corrected.2.2.2 [("a", [userMsg "x"]), ("b", [userMsg "y"])]
     "a" "b" (by decide)⟩

/-- Claim C9: intent classification is a priority-ordered first match over
    image cues, then reminder cues, then question cues, then greeting cues,
    then chat, with the five spec examples classifying as stated. -/
theorem C9_detect_intent_priority :
    detectIntent "generate image of a cat" = .image_generation
    ∧ detectIntent "remind me to call mom at 3pm" = .reminder_setting
    ∧ detectIntent "what is AI?" = .question
    ∧ detectIntent "hello there" = .greeting
    ∧ detectIntent "" = .chat
    ∧ (∀ s : String, imageCue (lowerChars s) = true →
        detectIntent s = .image_generation)
    ∧ (∀ s : String, imageCue (lowerChars s) = false →
        reminderCue (lowerChars s) = true →
        detectIntent s = .reminder_setting)
    ∧ (∀ s : String, imageCue (lowerChars s) = false →
        reminderCue (lowerChars s) = false →
        questionCue (lowerChars s) = true → detectIntent s = .question)
    ∧ (∀ s : String, imageCue (lowerChars s) = false →
        reminderCue (lowerChars s) = false →
        questionCue (lowerChars s) = false →
        greetingCue (lowerChars s) = true → detectIntent s = .greeting)
    ∧ (∀ s : String, imageCue (lowerChars s) = false →
        reminderCue (lowerChars s) = false →
        questionCue (lowerChars s) = false →
        greetingCue (lowerChars s) = false → detectIntent s = .chat) := by
  refine ⟨rfl, rfl, rfl, rfl, rfl, ?_, ?_, ?_, ?_, ?_⟩
  · intro s h1
    simp [detectIntent, h1]
  · intro s h1 h2
    simp [detectIntent, h1, h2]
  · intro s h1 h2 h3
    simp [detectIntent, h1, h2, h3]
  · intro s h1 h2 h3 h4
    simp [detectIntent, h1, h2, h3, h4]
  · intro s h1 h2 h3 h4
    simp [detectIntent, h1, h2, h3, h4]

/-- Claim C9 witness: a message matching only the image cue classifies as
    image intent through the priority chain. -/
theorem C9_detect_intent_witness :
    imageCue (lowerChars "draw a dog") = true
    ∧ detectIntent "draw a dog" = .image_generation :=
  ⟨by decide, C9_detect_intent_priority.2.2.2.2.2.1 "draw a dog" (by decide)⟩

/-- The conversion actually implemented equals the amended rule: hour 12 is
    mapped to 0 whenever the meridiem is anything other than "pm". -/
theorem finalHour_eq_amended (h : Nat) (mer : Option Meridiem) :
    finalHour h mer = amendedFinalHourC8 h mer := by
  unfold finalHour amendedFinalHourC8
  cases mer with
  | none =>
    by_cases h12 : h = 12
    · simp [h12]
    · simp [h12]
  | some m =>
    cases m with
    | am =>
      by_cases h12 : h = 12
      · simp [h12]
      · simp [h12]
    | pm =>
      by_cases h12 : h = 12
      · simp [h12]
      · simp [h12]

/-- Claim C8, counterexample: the input "at 12:30" (hour 12, no meridiem)
    with now = 2024-01-01T15:00 parses to 00:30 of the next day, not to the
    12:30 predicted by the claim's rule, under which an hour without "am" is
    left unchanged — the source also maps hour 12 without any meridiem
    to 0. -/
theorem C8_at_noon_without_meridiem_cex :
    parseNaturalLanguageTime { atTime := some (12, 30, none) }
      (mkMoment 2024 1 1 15 0) = some (mkMoment 2024 1 2 0 30)
    ∧ parseNaturalLanguageTime { atTime := some (12, 30, none) }
        (mkMoment 2024 1 1 15 0)
      ≠ some (specAtResolve (mkMoment 2024 1 1 15 0)
          (specFinalHourC8 12 none) 30) := by
  constructor
  · rfl
  · decide

/-- Claim C8 (amended): every input that reaches the "at H:MM[am|pm]" branch
    (no "tomorrow" keyword, no "in N unit" match) parses to today at the
    converted hour and minute, rolled to tomorrow when that time has already
    passed, where the conversion maps hour 12 to 0 whenever the meridiem is
    not "pm" (so also when absent), maps hour below 12 with "pm" to
    hour + 12, and keeps the hour otherwise; in particular "at 14:30" at
    2024-01-01T15:00 parses to 2024-01-02T14:30. -/
theorem C8_parse_at_form_corrected :
    (∀ (now : Moment) (h m : Nat) (mer : Option Meridiem) (tt : TimeText),
      tt.hasTomorrow = false → tt.inSpec = none →
      tt.atTime = some (h, m, mer) →
      parseNaturalLanguageTime tt now =
        some (specAtResolve now (amendedFinalHourC8 h mer) m))
    ∧ parseNaturalLanguageTime { atTime := some (14, 30, none) }
        (mkMoment 2024 1 1 15 0) = some (mkMoment 2024 1 2 14 30) := by
  constructor
  · intro now h m mer tt h1 h2 h3
    unfold parseNaturalLanguageTime
    rw [h1]
    simp only [Bool.false_eq_true, if_false]
    unfold parseNaturalLanguageTime.parseAfterTomorrow
    rw [h2, h3]
    simp only [specAtResolve, finalHour_eq_amended]
  · rfl

/-- Claim C8 witness: the "at 14:30" instance through the universally
    quantified amended statement. -/
theorem C8_parse_at_form_witness :
    ({ atTime := some (14, 30, none) } : TimeText).hasTomorrow = false
    ∧ parseNaturalLanguageTime { atTime := some (14, 30, none) }
        (mkMoment 2024 1 1 15 0)
      = some (specAtResolve (mkMoment 2024 1 1 15 0)
          (amendedFinalHourC8 14 none) 30) :=
  ⟨rfl, C8_parse_at_form_corrected.1 (mkMoment 2024 1 1 15 0) 14 30 none
    { atTime := some (14, 30, none) } rfl rfl rfl⟩

/-! ### Dispatcher lemmas -/

/-- The mutated original returned by `sendReminder` does not depend on the
    uuid drawn for a possible successor. -/
theorem sendReminderStep_fst (env : Env) (now : Moment) (id1 id2 : String)
    (r : Reminder) :
    (sendReminderStep env now id1 r).1 = (sendReminderStep env now id2 r).1 := by
  unfold sendReminderStep
  by_cases h1 : env.svcAvailable
  · by_cases h2 : env.notifierOk r
    · by_cases h3 : ({ r with sent := true, sent_at := some now } :
          Reminder).recurring && recTruthy { r with sent := true, sent_at := some now }
      · simp [h1, h2, h3]
      · simp [h1, h2, h3]
    · simp [h1, h2]
  · simp [h1]

/-- Indices already passed by the scan are never touched again: the loop
    mutates only the current index and appends at the end. -/
theorem tickPhone_getElem_of_lt (env : Env) (now : Moment) (j : Nat) :
    ∀ (fuel i k cnt : Nat) (lst : List Reminder), j < i →
      ((tickPhone env now fuel i k cnt lst).1)[j]? = lst[j]? := by
  intro fuel
  induction fuel with
  | zero => intro i k cnt lst _; rfl
  | succ fuel ih =>
    intro i k cnt lst hj
    unfold tickPhone
    by_cases hi : i < lst.length
    · rw [dif_pos hi]
      by_cases hp : processCond now (lst.get ⟨i, hi⟩) = true
      · rw [if_pos hp, ih (i + 1) _ _ _ (Nat.lt_succ_of_lt hj)]
        rw [List.getElem?_append_left
          (by rw [List.length_set]; exact Nat.lt_trans hj hi)]
        exact List.getElem?_set_ne (Nat.ne_of_gt hj)
      · rw [if_neg hp]
        exact ih (i + 1) _ _ _ (Nat.lt_succ_of_lt hj)
    · rw [dif_neg hi]

/-- Every reminder present when the scan starts is processed exactly
    according to the due test: if it is active, unsent and due it ends up as
    the `sendReminder` outcome, otherwise it is returned unchanged —
    provided the fuel covers the distance to its index, which the caller's
    fuel always does. -/
theorem tickPhone_getElem_processes (env : Env) (now : Moment) (j : Nat) :
    ∀ (fuel i k cnt : Nat) (lst : List Reminder) (r : Reminder),
      i ≤ j → j - i < fuel → lst[j]? = some r →
      ((tickPhone env now fuel i k cnt lst).1)[j]? =
        some (if processCond now r then deliveredMark env now r else r) := by
  intro fuel
  induction fuel with
  | zero => intro i k cnt lst r hij hf _; exact absurd hf (by omega)
  | succ fuel ih =>
    intro i k cnt lst r hij hf hr
    have hjlen : j < lst.length := (List.getElem?_eq_some.mp hr).1
    have hi : i < lst.length := Nat.lt_of_le_of_lt hij hjlen
    unfold tickPhone
    rw [dif_pos hi]
    rcases Nat.eq_or_lt_of_le hij with heq | hlt
    · subst heq
      have hget : lst.get ⟨i, hi⟩ = r := by
        have h2 := List.getElem?_eq_getElem hi
        rw [h2] at hr
        simpa using hr
      rw [hget]
      by_cases hp : processCond now r = true
      · rw [if_pos hp, if_pos hp,
          tickPhone_getElem_of_lt env now i fuel (i + 1) _ _ _ (Nat.lt_succ_self i)]
        rw [List.getElem?_append_left (by rw [List.length_set]; exact hi),
          List.getElem?_set_self hi]
        rw [sendReminderStep_fst env now (env.freshId k) "" r]
        rfl
      · rw [if_neg hp, if_neg hp,
          tickPhone_getElem_of_lt env now i fuel (i + 1) _ _ _ (Nat.lt_succ_self i)]
        exact hr
    · by_cases hp : processCond now (lst.get ⟨i, hi⟩) = true
      · rw [if_pos hp]
        apply ih (i + 1) _ _ _ r (by omega) (by omega)
        rw [List.getElem?_append_left (by rw [List.length_set]; exact hjlen),
          List.getElem?_set_ne (Nat.ne_of_lt hlt)]
        exact hr
      · rw [if_neg hp]
        exact ih (i + 1) _ _ _ r (by omega) (by omega) hr

/-- The per-phone results of a tick: entry `n` of the store is mapped to the
    scan of its own list, with some uuid-counter start value. -/
theorem checkReminders_entry (env : Env) (now : Moment) :
    ∀ (store : Store) (k n : Nat) (ph : String) (lst : List Reminder),
      store[n]? = some (ph, lst) →
      ∃ k0, ((checkReminders env now k store).1)[n]? =
        some (ph, (tickPhone env now (2 * lst.length + 2) 0 k0 0 lst).1) := by
  intro store
  induction store with
  | nil => intro k n ph lst h; simp at h
  | cons e rest ih =>
    intro k n ph lst h
    obtain ⟨ph0, l0⟩ := e
    cases n with
    | zero =>
      refine ⟨k, ?_⟩
      simp only [List.getElem?_cons_zero, Option.some_inj] at h
      obtain ⟨hph, hlst⟩ := Prod.mk.injEq .. ▸ h
      subst hph
      subst hlst
      unfold checkReminders
      exact List.getElem?_cons_zero
    | succ n =>
      rw [List.getElem?_cons_succ] at h
      obtain ⟨k0, hk⟩ := ih
        (tickPhone env now (2 * l0.length + 2) 0 k 0 l0).2.2 n ph lst h
      refine ⟨k0, ?_⟩
      unfold checkReminders
      rw [List.getElem?_cons_succ]
      exact hk

/-- Claim C5, counterexample: a reminder 90 seconds overdue — more than the
    claimed 1-minute grace window — is still delivered by the tick, because
    the truncating minute diff (90 s → 1) passes the `<= 1` test. -/
theorem C5_late_delivery_cex :
    (1000000 : Int) - cexLateR.datetime > msPerMinute
    ∧ (mgetD (checkReminders {} 1000000 0 [("p1", [cexLateR])]).1 "p1" []).map
        (fun r => (r.sent, r.status)) = [(true, .sent)] := by
  constructor
  · decide
  · rfl

/-- Claim C5 (amended): on a dispatcher tick, each reminder present at tick
    start is delivered (the `sendReminder` outcome is stored at its index)
    if and only if it is status active, not yet sent, and `now >= dueAt`
    with a truncated minute difference of at most 1 — equivalently
    `now - dueAt < 2 minutes`, not the claimed 1-minute bound; every other
    reminder, including any active unsent one more than two minutes overdue,
    is left exactly unchanged. -/
theorem C5_dispatcher_window_corrected :
    (∀ (env : Env) (now : Moment) (k n : Nat) (store : Store) (ph : String)
        (lst : List Reminder) (j : Nat) (r : Reminder),
      store[n]? = some (ph, lst) → lst[j]? = some r →
      ∃ lst2, ((checkReminders env now k store).1)[n]? = some (ph, lst2) ∧
        lst2[j]? =
          some (if processCond now r then deliveredMark env now r else r))
    ∧ (∀ (now : Moment) (r : Reminder),
        processCond now r = true ↔
          (r.status = .active ∧ r.sent = false ∧ r.datetime ≤ now ∧
            now - r.datetime < 2 * msPerMinute)) := by
  constructor
  · intro env now k n store ph lst j r hn hj
    obtain ⟨k0, hk⟩ := checkReminders_entry env now store k n ph lst hn
    refine ⟨_, hk, ?_⟩
    refine tickPhone_getElem_processes env now j (2 * lst.length + 2) 0 k0 0
      lst r (Nat.zero_le j) ?_ hj
    have : j < lst.length := (List.getElem?_eq_some.mp hj).1
    omega
  · intro now r
    unfold processCond dueNow
    simp only [msPerMinute, Bool.and_eq_true, beq_iff_eq, Bool.not_eq_true',
      decide_eq_true_eq]
    rw [show (2 : Int) * 60000 = 120000 from by norm_num]
    have hfwd : ∀ x : Int, x / 60000 ≤ 1 → x < 120000 := by omega
    have hbwd : ∀ x : Int, x < 120000 → x / 60000 ≤ 1 := by omega
    constructor
    · rintro ⟨⟨hs, hns⟩, hle, hdiv⟩
      rw [Int.fdiv_eq_ediv _ (by norm_num)] at hdiv
      exact ⟨hs, hns, hle, hfwd _ hdiv⟩
    · rintro ⟨hs, hns, hle, hlt⟩
      refine ⟨⟨hs, hns⟩, hle, ?_⟩
      rw [Int.fdiv_eq_ediv _ (by norm_num)]
      exact hbwd _ hlt

/-- Claim C5 witness: the corrected window applied to the concrete
    90-seconds-late reminder, which the tick delivers. -/
theorem C5_dispatcher_window_witness :
    (([("p1", [cexLateR])] : Store)[0]? = some ("p1", [cexLateR]))
    ∧ ((checkReminders {} 1000000 0 [("p1", [cexLateR])]).1)[0]?
      = some ("p1",
          [if processCond 1000000 cexLateR then deliveredMark {} 1000000 cexLateR
           else cexLateR]) := by
  refine ⟨rfl, ?_⟩
  obtain ⟨lst2, h1, h2⟩ := C5_dispatcher_window_corrected.1 {} 1000000 0 0
    [("p1", [cexLateR])] "p1" [cexLateR] 0 cexLateR rfl rfl
  have hL : ((checkReminders ({} : Env) 1000000 0 [("p1", [cexLateR])]).1)[0]?
      = some ("p1", [deliveredMark {} 1000000 cexLateR]) := rfl
  rw [hL] at h1 ⊢
  have h3 : ([deliveredMark {} 1000000 cexLateR] : List Reminder) = lst2 := by
    have := Prod.mk.injEq .. ▸ Option.some_inj.mp h1
    exact this.2
  rw [← h3] at h2
  have h4 : deliveredMark {} 1000000 cexLateR =
      (if processCond 1000000 cexLateR then deliveredMark {} 1000000 cexLateR
       else cexLateR) := by
    simpa using h2
  rw [← h4]

/-- Claim C3, counterexample: in the three-due-reminders tick where the
    second Notifier send throws, `checkReminders` returns 3 — the counter is
    incremented for every attempted reminder, failed ones included — while
    only 2 reminders were actually delivered (sent flag set). -/
theorem C3_tick_count_cex :
    (checkReminders cexTickEnv 1000000 0 cexTickStore).2.1 = 3
    ∧ (mgetD (checkReminders cexTickEnv 1000000 0 cexTickStore).1 "p1"
        []).countP (fun r => r.sent) = 2
    ∧ (checkReminders cexTickEnv 1000000 0 cexTickStore).2.1
      ≠ (mgetD (checkReminders cexTickEnv 1000000 0 cexTickStore).1 "p1"
          []).countP (fun r => r.sent) := by
  refine ⟨rfl, rfl, ?_⟩
  rw [show (checkReminders cexTickEnv 1000000 0 cexTickStore).2.1 = 3 from rfl,
    show (mgetD (checkReminders cexTickEnv 1000000 0 cexTickStore).1 "p1"
      []).countP (fun r => r.sent) = 2 from rfl]
  decide

/-- Claim C3 (amended): with three due reminders where the second Notifier
    send throws, the first and third are still marked delivered
    (sent flag set, status `sent`), the second is marked status `failed`
    with the error recorded, the scan finishes without propagating the
    exception — and the tick returns 3, the count of due reminders
    attempted, not the count 2 of reminders delivered. -/
theorem C3_tick_isolates_failures :
    checkReminders cexTickEnv 1000000 0 cexTickStore =
      ([("p1",
         [{ cexTickR1 with sent := true, sent_at := some 1000000,
                           status := .sent },
          { cexTickR2 with status := .failed,
                           errMsg := some "Failed to send WhatsApp message" },
          { cexTickR3 with sent := true, sent_at := some 1000000,
                           status := .sent }])],
       3, 0) := by
  rfl

/-- Claim C7: creating a reminder with a strictly future dueAt and then
    listing the recipient's active reminders yields exactly one entry whose
    recipient, text and dueAt match the created fields — stated for any
    prior store in which no active reminder of that recipient already
    matches those fields and the recipient has fewer than 50 active
    reminders (the default list limit, beyond which the listing truncates). -/
theorem C7_create_then_list_unique
    (store : Store) (now : Moment) (newId phone text : String) (t : Moment)
    (hfut : now < t)
    (hcap : ((mgetD store phone []).filter
        (fun r => r.status.str == "active")).length < 50)
    (hnone : ((mgetD store phone []).filter
        (fun r => r.status.str == "active")).countP
        (fun r => r.phone == phone && r.message == text && r.datetime == t)
      = 0) :
    (getUserReminders (setReminder store now newId phone text (some t)).2
        phone { status := "active" }).countP
      (fun r => r.phone == phone && r.message == text && r.datetime == t)
    = 1 := by
  have hnlt : ¬t < now := by
    intro hc
    exact absurd hfut (by
      intro h2
      exact (lt_irrefl t) (lt_trans hc h2))
  have hstep : (setReminder store now newId phone text (some t)).2
      = mset store phone (mgetD store phone [] ++
          [{ id := newId, phone := phone, message := text, datetime := t,
             status := .active, created_at := now }]) := by
    simp only [setReminder]
    rw [if_neg hnlt]
  rw [hstep]
  unfold getUserReminders
  dsimp only
  rw [show mgetD (mset store phone (mgetD store phone [] ++
      [{ id := newId, phone := phone, message := text, datetime := t,
         status := .active, created_at := now }])) phone []
    = mgetD store phone [] ++
      [{ id := newId, phone := phone, message := text, datetime := t,
         status := .active, created_at := now }] from by
    unfold mgetD
    rw [mget_mset_self]
    rfl]
  rw [if_pos (by decide : ("active" : String) ≠ "all")]
  rw [if_pos (by decide : ("datetime" : String) = "datetime")]
  rw [List.filter_append]
  rw [show (List.filter (fun r => r.status.str == "active")
      [({ id := newId, phone := phone, message := text, datetime := t,
          status := RStatus.active, created_at := now } : Reminder)])
    = [({ id := newId, phone := phone, message := text, datetime := t,
          status := RStatus.active, created_at := now } : Reminder)] from by
    rw [List.filter_cons_of_pos (by rfl)]
    rfl]
  rw [if_pos (by decide : (50 : Int) > 0)]
  rw [List.take_of_length_le (by
    rw [(List.perm_insertionSort _ _).length_eq, List.length_append]
    simp only [List.length_cons, List.length_nil]
    show _ + 1 ≤ (50 : Int).toNat
    rw [show (50 : Int).toNat = 50 from rfl]
    omega)]
  rw [(List.perm_insertionSort _ _).countP_eq]
  rw [List.countP_append]
  rw [hnone]
  simp

/-- Claim C7 witness: the concrete instance on the empty store. -/
theorem C7_create_then_list_witness :
    ((0 : Moment) < 86400000)
    ∧ (getUserReminders (setReminder [] 0 "w1" "p1" "wm" (some 86400000)).2
        "p1" { status := "active" }).countP
        (fun r => r.phone == "p1" && r.message == "wm"
          && r.datetime == 86400000) = 1 :=
  ⟨by decide,
   C7_create_then_list_unique [] 0 "w1" "p1" "wm" 86400000 (by decide)
     (by decide) (by decide)⟩

end WBot
